import Mathlib

/-!
Shallow embedding of the jelly-j daemon (src/src/daemon.ts), the singleton
lock (state.ts revision in src/unnamed/part_006), the history store
(src/unnamed/part_011) and the state-directory layout, together with proofs
of the specification claims about them.

The daemon is modelled as a deterministic state machine: the event loop
consumes external events (socket connects, parsed frames, socket closes,
completion of the in-flight model turn) and each event is processed by a
step function transcribed from the source.  The model runtime is an oracle:
a turn completion carries the stream events and final outcome of up to two
chat attempts (the second is consulted only when the executor retries).
-/

namespace JellyJ

/-! ## Small string helpers (JS semantics used by daemon.ts) -/

/-- Bool test: the first list occurs at the head of the second. -/
def leadsWith [BEq α] : List α → List α → Bool
  | [], _ => true
  | _ :: _, [] => false
  | a :: as1, b :: bs1 => a == b && leadsWith as1 bs1

/-- Bool test: the first list occurs somewhere inside the second. -/
def hasSub [BEq α] (p : List α) : List α → Bool
  | [] => p.isEmpty
  | b :: bs1 => leadsWith p (b :: bs1) || hasSub p bs1

/-- The whitespace class trimmed by the JS `trim()` calls in the sources
(ASCII whitespace; the inputs involved never carry the exotic unicode
spaces). -/
def isWsChar (c : Char) : Bool :=
  c == ' ' || c == '\t' || c == '\n' || c == '\r' || c == '\x0b' || c == '\x0c'

def dropLeadingWs : List Char → List Char
  | [] => []
  | c :: rest => if isWsChar c then dropLeadingWs rest else c :: rest

/-- JS `trimEnd()`. -/
def strTrimRight (s : String) : String :=
  String.mk (dropLeadingWs s.data.reverse).reverse

/-- JS `trim()`. -/
def strTrim (s : String) : String :=
  String.mk (dropLeadingWs (dropLeadingWs s.data.reverse).reverse)

/-- Case-insensitive substring test, the effect of a `/pat/i.test(text)`
regex on a pattern with no metacharacters. -/
def regexTestCI (pat text : String) : Bool :=
  hasSub (pat.data.map Char.toLower) (text.data.map Char.toLower)

/-- Model of `normalizeString` (daemon.ts line 58): trim, empty becomes undefined. -/
def normalizeString (value : Option String) : Option String :=
  match value with
  | none => none
  | some s =>
    let trimmed := strTrim s
    if trimmed.length > 0 then some trimmed else none

/-- JS truthiness of a `string | undefined` value (`undefined` and `""` are
falsy). -/
def strTruthy : Option String → Bool
  | none => false
  | some s => !s.data.isEmpty

/-- JS truthiness of a `number | undefined` value (`undefined` and `0` are
falsy). -/
def natTruthy : Option Nat → Bool
  | none => false
  | some n => n != 0

/-! ## Protocol types (src/src/protocol.ts and daemon.ts usage) -/

/-- Model of `ModelAlias` (src/src/commands.ts line 3). -/
inductive ModelAlias
  | opus
  | haiku
deriving DecidableEq, Repr

/-- Model of `HistoryRole` (protocol.ts). -/
inductive HistoryRole
  | user
  | assistant
  | note
  | error
deriving DecidableEq, Repr

/-- Model of `HistoryEntry` (protocol.ts). -/
structure HistoryEntry where
  timestamp : String
  session : Option String
  role : HistoryRole
  text : String
deriving DecidableEq, Repr

/-- Model of `ClientToDaemonMessage` as handled by daemon.ts `handleMessage`;
`unknown` stands for any frame whose `type` hits the default case. -/
inductive ClientMsg
  | registerClient (clientId : String) (zellijSession : Option String)
  | chatRequest (requestId clientId text : String) (zellijSession : Option String)
  | setModel (requestId clientId : String) (modelAlias : ModelAlias)
  | newSession (requestId clientId : String) (zellijSession : Option String)
  | ping (requestId clientId : String)
  | unknown
deriving DecidableEq, Repr

/-- Model of `DaemonToClientMessage` (protocol.ts / daemon.ts). -/
inductive Frame
  | registered (clientId : String) (daemonPid : Nat) (model : ModelAlias) (busy : Bool)
  | historySnapshot (entries : List HistoryEntry)
  | statusNote (message : String)
  | chatStart (requestId : String) (model : ModelAlias) (queuedAhead : Nat)
  | chatDelta (requestId text : String)
  | toolUse (requestId name : String)
  | resultError (requestId subtype : String) (errors : List String)
  | chatEnd (requestId : String) (ok : Bool) (model : ModelAlias)
  | modelUpdated (requestId : String) (modelAlias : ModelAlias)
  | pong (requestId : String) (daemonPid : Nat)
  | error (requestId : Option String) (message : String)
deriving DecidableEq, Repr

/-! ## Stale-resume predicates (daemon.ts lines 75-109) -/

/-- Model of `isStaleResumeError` (daemon.ts line 75):
`/no conversation found with session id/i.test(text)`. -/
def isStaleResumeError (text : String) : Bool :=
  regexTestCI "no conversation found with session id" text

/-- Model of `hasOnlyStaleResumeErrors` (daemon.ts line 79). -/
def hasOnlyStaleResumeErrors (errors : List String) : Bool :=
  !errors.isEmpty && errors.all (fun entry => isStaleResumeError entry)

/-- Model of `isRecoverableResumeResultError` (daemon.ts line 83). -/
def isRecoverableResumeResultError (sessionId : Option String)
    (assistantText : String) (resultError : String) : Bool :=
  if !strTruthy sessionId then false
  else if (strTrim assistantText).length > 0 then false
  else isStaleResumeError resultError

/-- Model of `shouldRetryWithFreshSession` (daemon.ts line 93). -/
def shouldRetryWithFreshSession (errorMessage : String) (sessionId : Option String)
    (assistantText : String) (resultErrors : List String) : Bool :=
  if !strTruthy sessionId then false
  else if (strTrim assistantText).length > 0 then false
  else
    let staleResumeErrors := hasOnlyStaleResumeErrors resultErrors
    if staleResumeErrors then true
    else if regexTestCI "claude code process exited with code 1" errorMessage then
      resultErrors.isEmpty || staleResumeErrors
    else false

/-! ## Model Runtime oracle

The adapter `chat(...)` (src/src/agent.ts) streams callbacks and then either
returns `{sessionId}` or throws.  A chat attempt is modelled by the list of
callback events it fires and its final outcome; `Except.error msg` is a
thrown exception with message `msg`, `Except.ok sid` is a normal return
whose `result.sessionId` is `sid`. -/

inductive StreamEvent
  | text (s : String)
  | toolUse (name : String)
  | resultError (subtype : String) (errors : List String)
  | permissionRequest (toolName reason : String)
deriving DecidableEq, Repr

structure AttemptResult where
  events : List StreamEvent
  outcome : Except String (Option String)
deriving Repr

/-- The oracle for one dequeued turn: the behaviour of the first chat attempt
and of the retry attempt (consulted only if the executor retries). -/
structure TurnBehavior where
  first : AttemptResult
  second : AttemptResult
deriving Repr

/-! ## The executor's per-attempt accumulator (daemon.ts lines 178-285) -/

structure AttemptState where
  assistantText : String
  hadError : Bool
  resultErrors : List String
deriving DecidableEq, Repr

/-- Model of `resetAttemptState` (daemon.ts line 281) / the initial values at
lines 178-180. -/
def initAttemptState : AttemptState :=
  { assistantText := "", hadError := false, resultErrors := [] }

/-- The formatted text pushed by `onResultError` (daemon.ts line 243). -/
def formatResultError (subtype : String) (errors : List String) : String :=
  "[" ++ subtype ++ "] " ++ String.intercalate "; " errors

/-- One `streamEvents` callback firing (daemon.ts lines 225-268).
`sessionId` is the daemon-level resume token in effect during the attempt
(the closure reads the mutable `sessionId` variable; it is `none` during a
fresh-session retry).  Returns the updated accumulator and the frames sent
to the requesting client. -/
def processEvent (requestId : String) (sessionId : Option String)
    (st : AttemptState) : StreamEvent → AttemptState × List Frame
  | .text t =>
    ({ st with assistantText := st.assistantText ++ t },
      [Frame.chatDelta requestId t])
  | .toolUse name => (st, [Frame.toolUse requestId name])
  | .resultError subtype errors =>
    let formatted := formatResultError subtype errors
    let st1 : AttemptState :=
      { st with hadError := true, resultErrors := st.resultErrors ++ [formatted] }
    if isRecoverableResumeResultError sessionId st.assistantText formatted then
      (st1, [])
    else
      (st1, [Frame.resultError requestId subtype errors])
  | .permissionRequest toolName reason =>
    (st, [Frame.statusNote ("permission requested: " ++ toolName ++ " (" ++ reason ++ ")")])

/-- Folds `processEvent` over an attempt's stream. -/
def processEvents (requestId : String) (sessionId : Option String)
    (st : AttemptState) : List StreamEvent → AttemptState × List Frame
  | [] => (st, [])
  | e :: rest =>
    let (st1, fr1) := processEvent requestId sessionId st e
    let (st2, fr2) := processEvents requestId sessionId st1 rest
    (st2, fr1 ++ fr2)

/-! ## The turn body (daemon.ts lines 224-387)

`runTurn` is the part of `processQueue` from the `try` at line 224 to the
`chat_end` emission: it consumes the oracle, performs the stale-resume
retry policy and produces the frames addressed to the requesting client,
the final resume token, and the history entries appended at turn end. -/

structure TurnOutcome where
  frames : List Frame
  sessionId : Option String
  /-- Whether the success path (lines 333-363) ran; it updates
  `lastActiveSession` and persists state, the exception path does not. -/
  successPath : Bool
  historyAppends : List (HistoryRole × String)
deriving DecidableEq, Repr

/-- Success epilogue (daemon.ts lines 333-363). -/
def finishTurn (requestId : String) (model : ModelAlias) (pre : List Frame)
    (st : AttemptState) (resultSessionId : Option String) : TurnOutcome :=
  let assistantEntry :=
    let t := strTrimRight st.assistantText
    if t.data.isEmpty then "(no text)" else t
  { frames := pre ++ [Frame.chatEnd requestId (!st.hadError) model],
    sessionId := resultSessionId,
    successPath := true,
    historyAppends :=
      if !st.hadError then [(HistoryRole.assistant, assistantEntry)]
      else [(HistoryRole.error, String.intercalate "\n" st.resultErrors)] }

/-- Exception epilogue: the outer `catch` (daemon.ts lines 364-382). -/
def catchTurn (requestId : String) (model : ModelAlias) (pre : List Frame)
    (message : String) (sessionIdNow : Option String) : TurnOutcome :=
  { frames := pre ++ [Frame.error (some requestId) message,
      Frame.chatEnd requestId false model],
    sessionId := sessionIdNow,
    successPath := false,
    historyAppends := [(HistoryRole.error, message)] }

/-- The whole turn body.  `sessionId0` is the daemon resume token at
dequeue.  The post-`catch` re-check of `shouldRetryWithFreshSession`
(source lines 314-331) is dead on the catch-retry path because the token
was already cleared at line 306 and `shouldRetryWithFreshSession` rejects
an absent token, so that path goes straight to the epilogue here. -/
def runTurn (requestId : String) (sessionId0 : Option String) (model : ModelAlias)
    (b : TurnBehavior) : TurnOutcome :=
  let st1 := (processEvents requestId sessionId0 initAttemptState b.first.events).1
  let fr1 := (processEvents requestId sessionId0 initAttemptState b.first.events).2
  let st2 := (processEvents requestId none initAttemptState b.second.events).1
  let fr2 := (processEvents requestId none initAttemptState b.second.events).2
  match b.first.outcome with
  | Except.error msg =>
    if shouldRetryWithFreshSession msg sessionId0 st1.assistantText st1.resultErrors then
      let noteF := Frame.statusNote
        "previous Claude session could not be resumed; retrying with a fresh session"
      match b.second.outcome with
      | Except.error msg2 => catchTurn requestId model (fr1 ++ [noteF] ++ fr2) msg2 none
      | Except.ok sid2 => finishTurn requestId model (fr1 ++ [noteF] ++ fr2) st2 sid2
    else
      catchTurn requestId model fr1 msg sessionId0
  | Except.ok sid1 =>
    if st1.hadError && shouldRetryWithFreshSession "" sessionId0 st1.assistantText st1.resultErrors then
      let noteF := Frame.statusNote
        "stale Claude session detected; retrying with a fresh session"
      match b.second.outcome with
      | Except.error msg2 => catchTurn requestId model (fr1 ++ [noteF] ++ fr2) msg2 none
      | Except.ok sid2 => finishTurn requestId model (fr1 ++ [noteF] ++ fr2) st2 sid2
    else
      finishTurn requestId model fr1 st1 sid1

/-! ## History store (src/unnamed/part_011, history.ts)

The journal file is a list of lines; a line is either unparseable
(`malformed`, covering JSON.parse failures and the blank lines removed by
the `filter(Boolean)`) or a parsed JSON record whose recognized fields may
each be absent or of the wrong type (absent here). -/

structure RawRecord where
  timestamp : Option String
  session : Option String
  role : Option String
  text : Option String
deriving DecidableEq, Repr

inductive JournalLine
  | malformed
  | record (r : RawRecord)
deriving DecidableEq, Repr

/-- Model of `normalizeRole` (part_011 line 21): anything but the four role strings
collapses to `note`. -/
def normalizeRole (value : Option String) : HistoryRole :=
  match value with
  | some "user" => HistoryRole.user
  | some "assistant" => HistoryRole.assistant
  | some "note" => HistoryRole.note
  | some "error" => HistoryRole.error
  | _ => HistoryRole.note

/-- The per-line body of the `readHistorySnapshot` loop (part_011 lines
63-79): `none` means the line is skipped.  `now` stands for `nowIso()`,
substituted when the timestamp field is unusable. -/
def parseHistoryLine (now : String) : JournalLine → Option HistoryEntry
  | JournalLine.malformed => none
  | JournalLine.record r =>
    let timestamp := (normalizeString r.timestamp).getD now
    match normalizeString r.text with
    | none => none
    | some text =>
      some { timestamp := timestamp, session := normalizeString r.session,
             role := normalizeRole r.role, text := text }

/-- Model of `MAX_SNAPSHOT_ENTRIES` (part_011 line 7). -/
def MAX_SNAPSHOT_ENTRIES : Nat := 80

/-- Model of `readHistorySnapshot` (part_011 lines 54-85).  The file is `none` when
missing/unreadable (the outer catch), otherwise its list of lines.  The
final `parsed.slice(-Math.max(1, limit))` keeps the last
`max 1 limit` parsed entries. -/
def readHistorySnapshot (file : Option (List JournalLine)) (now : String)
    (limit : Nat := MAX_SNAPSHOT_ENTRIES) : List HistoryEntry :=
  match file with
  | none => []
  | some lines =>
    let parsed := lines.filterMap (parseHistoryLine now)
    parsed.drop (parsed.length - max 1 limit)

/-- The spec's snapshot contract, stated independently: the last `limit`
parsed entries in original order (take from the reversed list, then
restore order). -/
def specReadSnapshot (file : Option (List JournalLine)) (now : String)
    (limit : Nat) : List HistoryEntry :=
  match file with
  | none => []
  | some lines =>
    ((lines.filterMap (parseHistoryLine now)).reverse.take limit).reverse

/-! ## Daemon state machine (src/src/daemon.ts, runDaemon) -/

/-- Model of `ClientConnection` (daemon.ts line 25); the mutable per-socket object. -/
structure Connection where
  clientId : Option String
  zellijSession : Option String
deriving DecidableEq, Repr

/-- Model of `PendingChatRequest` (daemon.ts line 32). -/
structure PendingChatRequest where
  requestId : String
  clientId : String
  text : String
  zellijSession : Option String
deriving DecidableEq, Repr

/-- Association-list analogue of `Map.set`. -/
def setAssoc [BEq κ] (k : κ) (v : β) : List (κ × β) → List (κ × β)
  | [] => [(k, v)]
  | (k1, v1) :: rest => if k1 == k then (k, v) :: rest else (k1, v1) :: setAssoc k v rest

/-- Association-list analogue of `Map.delete` (keys are unique in a JS
`Map`, so deleting the key's entry is removing every binding of it). -/
def eraseAssoc [BEq κ] (k : κ) : List (κ × β) → List (κ × β)
  | [] => []
  | (k1, v1) :: rest =>
    if k1 == k then eraseAssoc k rest else (k1, v1) :: eraseAssoc k rest

/-- The daemon's mutable state (daemon.ts lines 120-129).  `conns` is the
heap of connection objects keyed by an abstract socket id (objects survive
socket close while references to them remain); `openSockets` is the key set
of `clientsBySocket`; `clientsById` maps a client id to the socket id of
the connection object it references.  `inFlight` holds the request the
executor is working on together with the `currentSession` computed at
dequeue; it is a list so that the single-flight discipline is a theorem
rather than a modelling assumption. -/
structure DaemonState where
  sessionId : Option String
  lastActiveSession : Option String
  currentModel : ModelAlias
  conns : List (Nat × Connection)
  openSockets : List Nat
  clientsById : List (String × Nat)
  queue : List PendingChatRequest
  inFlight : List (PendingChatRequest × Option String)
  processing : Bool
  journal : List HistoryEntry
  daemonPid : Nat
deriving Repr

/-- One attempted frame write.  `via` is the client id used for routing when
the write went through `sendToClientId`; `sock` is the socket actually
written to (`none` when the frame was dropped: unrouted client id or
destroyed socket). -/
structure Emission where
  via : Option String
  sock : Option Nat
  frame : Frame
deriving DecidableEq, Repr

/-- External events consumed by the daemon's event loop. -/
inductive Event
  | connect (sock : Nat)
  | line (sock : Nat) (msg : Option ClientMsg)
  | closeSock (sock : Nat)
  | complete (b : TurnBehavior)

/-- Model of `sendToClientId` (daemon.ts line 152): look the client id up in
`clientsById`; drop the frame when absent, else write to that connection's
socket (`send` drops on a destroyed socket). -/
def sendToClientId (s : DaemonState) (clientId : String) (f : Frame) : Emission :=
  match List.lookup clientId s.clientsById with
  | none => { via := some clientId, sock := none, frame := f }
  | some sockId =>
    { via := some clientId,
      sock := if s.openSockets.contains sockId then some sockId else none,
      frame := f }

/-- A direct `send(socket, ...)` (daemon.ts line 64). -/
def sendSock (s : DaemonState) (sock : Nat) (f : Frame) : Emission :=
  { via := none, sock := if s.openSockets.contains sock then some sock else none, frame := f }

/-- Model of `broadcast` (daemon.ts line 158): iterate `clientsBySocket`. -/
def broadcastFrame (s : DaemonState) (f : Frame) : List Emission :=
  s.openSockets.map (fun k => sendSock s k f)

/-- Dereference a socket's connection object. -/
def getConn (s : DaemonState) (sock : Nat) : Connection :=
  (List.lookup sock s.conns).getD { clientId := none, zellijSession := none }

def roleToString : HistoryRole → String
  | HistoryRole.user => "user"
  | HistoryRole.assistant => "assistant"
  | HistoryRole.note => "note"
  | HistoryRole.error => "error"

/-- The journal file produced by the daemon's own (well-formed) appends, as
seen by `readHistorySnapshot`. -/
def journalToLines (journal : List HistoryEntry) : List JournalLine :=
  journal.map (fun e =>
    JournalLine.record
      { timestamp := some e.timestamp, session := e.session,
        role := some (roleToString e.role), text := some e.text })

/-- The synchronous head of `processQueue` (daemon.ts lines 171-222): the
re-entrancy guard, the dequeue, the session-switch note, `chat_start` with
the hard-coded `queuedAhead: 0`, and the user history append.  No-op when a
turn is already processing or the queue is empty. -/
def startTurn (s : DaemonState) : DaemonState × List Emission :=
  if s.processing then (s, [])
  else
    match s.queue with
    | [] => (s, [])
    | next :: rest =>
      let clientConn := (List.lookup next.clientId s.clientsById).bind
        (fun sockId => List.lookup sockId s.conns)
      let currentSession :=
        match normalizeString next.zellijSession with
        | some cs => some cs
        | none => normalizeString (clientConn.bind (fun c => c.zellijSession))
      let sessionSwitched :=
        match currentSession, s.lastActiveSession with
        | some cs, some las => cs != las
        | _, _ => false
      let switchNote :=
        if sessionSwitched then
          [sendToClientId s next.clientId (Frame.statusNote
            ("session switched: " ++ s.lastActiveSession.getD "unknown" ++ " -> "
              ++ currentSession.getD ""))]
        else []
      let startEm := sendToClientId s next.clientId
        (Frame.chatStart next.requestId s.currentModel 0)
      let s1 := { s with
        queue := rest,
        processing := true,
        inFlight := s.inFlight ++ [(next, currentSession)],
        journal := s.journal ++
          [{ timestamp := "", session := currentSession,
             role := HistoryRole.user, text := next.text }] }
      (s1, switchNote ++ [startEm])

/-- Completion of the in-flight turn: the rest of `processQueue`
(daemon.ts lines 224-387), i.e. `runTurn` plus the `finally` that clears
the busy flag and re-enters `processQueue`. -/
def completeTurn (s : DaemonState) (b : TurnBehavior) : DaemonState × List Emission :=
  match s.inFlight with
  | [] => (s, [])
  | (req, currentSession) :: restIF =>
    let o := runTurn req.requestId s.sessionId s.currentModel b
    let ems := o.frames.map (fun f => sendToClientId s req.clientId f)
    let s1 := { s with
      sessionId := o.sessionId,
      lastActiveSession := if o.successPath then currentSession else s.lastActiveSession,
      journal := s.journal ++ o.historyAppends.map (fun rt =>
        { timestamp := "", session := currentSession, role := rt.1, text := rt.2 }),
      inFlight := restIF,
      processing := false }
    let (s2, ems2) := startTurn s1
    (s2, ems ++ ems2)

/-- Model of `handleMessage` (daemon.ts lines 424-495). -/
def handleMessage (s : DaemonState) (sock : Nat) : ClientMsg → DaemonState × List Emission
  | ClientMsg.registerClient cid zs =>
    let conn := getConn s sock
    let conn1 := { conn with clientId := some cid, zellijSession := normalizeString zs }
    let s1 := { s with conns := setAssoc sock conn1 s.conns,
                       clientsById := setAssoc cid sock s.clientsById }
    (s1,
      [sendSock s1 sock (Frame.registered cid s1.daemonPid s1.currentModel s1.processing),
       sendSock s1 sock (Frame.historySnapshot
         (readHistorySnapshot (some (journalToLines s1.journal)) ""))])
  | ClientMsg.chatRequest rid cid text zs =>
    let req : PendingChatRequest :=
      { requestId := rid, clientId := cid, text := text,
        zellijSession := normalizeString zs }
    let q1 := s.queue ++ [req]
    let queuedAhead := (q1.length - 1) + (if s.processing then 1 else 0)
    let s1 := { s with queue := q1 }
    let noteEms :=
      if queuedAhead > 0 then
        [sendToClientId s1 cid (Frame.statusNote
          ("request queued (" ++ toString queuedAhead ++ " ahead)"))]
      else []
    let (s2, ems2) := startTurn s1
    (s2, noteEms ++ ems2)
  | ClientMsg.setModel rid _cid a =>
    let s1 := { s with currentModel := a }
    (s1, broadcastFrame s1 (Frame.modelUpdated rid a))
  | ClientMsg.newSession rid cid zs =>
    if s.processing || !s.queue.isEmpty then
      (s, [sendToClientId s cid (Frame.error (some rid)
        "cannot start a new session while requests are in progress")])
    else
      let s1 := { s with
        sessionId := none,
        lastActiveSession :=
          match normalizeString zs with
          | some rs => some rs
          | none => s.lastActiveSession }
      (s1, [sendToClientId s1 cid (Frame.statusNote
        "new Claude session created (future turns start fresh)")])
  | ClientMsg.ping rid cid =>
    (s, [sendToClientId s cid (Frame.pong rid s.daemonPid)])
  | ClientMsg.unknown =>
    (s, [sendSock s sock (Frame.error none "unsupported message type")])

/-- One event-loop step.  `line _ none` is an undecodable line (daemon.ts
lines 514-522); `closeSock` is the socket `close` handler (lines 529-535),
which removes the transport from `clientsBySocket` and deletes the
connection object's `clientId` from `clientsById` without checking which
connection that map entry currently references. -/
def step (s : DaemonState) : Event → DaemonState × List Emission
  | Event.connect sock =>
    ({ s with conns := setAssoc sock { clientId := none, zellijSession := none } s.conns,
              openSockets := s.openSockets ++ [sock] }, [])
  | Event.line sock none =>
    (s, [sendSock s sock (Frame.error none "invalid json message")])
  | Event.line sock (some m) => handleMessage s sock m
  | Event.closeSock sock =>
    let conn := getConn s sock
    ({ s with
        openSockets := s.openSockets.filter (fun k => k != sock),
        clientsById :=
          match conn.clientId with
          | some cid => eraseAssoc cid s.clientsById
          | none => s.clientsById }, [])
  | Event.complete b => completeTurn s b

/-- Folds `step` over an event list, accumulating emissions. -/
def run (s : DaemonState) : List Event → DaemonState × List Emission
  | [] => (s, [])
  | e :: rest =>
    let (s1, ems1) := step s e
    let (s2, ems2) := run s1 rest
    (s2, ems1 ++ ems2)

/-- The daemon state right after startup (daemon.ts lines 111-129):
persisted state is loaded through `readState`, whose values are
normalized. -/
def initState (persistedSessionId persistedZellij : Option String) (pid : Nat) : DaemonState :=
  { sessionId := normalizeString persistedSessionId,
    lastActiveSession := normalizeString persistedZellij,
    currentModel := ModelAlias.opus,
    conns := [], openSockets := [], clientsById := [],
    queue := [], inFlight := [], processing := false,
    journal := [], daemonPid := pid }

/-! ## Singleton lock (state.ts revision in src/unnamed/part_006, lines 965-1116)

The filesystem and process table are a small world: the lock file is
absent, unparseable, or holds a parsed owner record; a pid probe
(`process.kill(pid, 0)`) succeeds, fails with EPERM, or fails with ESRCH. -/

/-- Model of `AgentLockOwner` (part_006 line 978), post-normalization. -/
structure AgentLockOwner where
  pid : Option Nat
  startedAt : Option String
  hostname : Option String
  zellijSession : Option String
  cwd : Option String
deriving DecidableEq, Repr

inductive LockFileState
  | absent
  | malformed
  | holds (owner : AgentLockOwner)
deriving DecidableEq, Repr

structure LockWorld where
  lockFile : LockFileState
  /-- pids whose `kill(pid, 0)` succeeds. -/
  aliveSet : List Nat
  /-- pids whose `kill(pid, 0)` raises EPERM (exists but not signalable). -/
  permSet : List Nat
  selfPid : Nat
  now : String
  hostname : String
  cwd : String
deriving DecidableEq, Repr

/-- The outcome of `process.kill(pid, 0)`. -/
def killProbe (w : LockWorld) (pid : Nat) : Except String Unit :=
  if w.permSet.contains pid then Except.error "EPERM"
  else if w.aliveSet.contains pid then Except.ok ()
  else Except.error "ESRCH"

/-- Model of `processIsAlive` (part_006 line 1003): success means alive; on error,
only EPERM is treated as alive. -/
def processIsAlive (w : LockWorld) (pid : Nat) : Bool :=
  match killProbe w pid with
  | Except.ok _ => true
  | Except.error code => code == "EPERM"

/-- Model of `currentLockOwner` (part_006 line 1013). -/
def currentLockOwner (w : LockWorld) (zellijSession : Option String) : AgentLockOwner :=
  { pid := some w.selfPid, startedAt := some w.now, hostname := some w.hostname,
    zellijSession := normalizeString zellijSession, cwd := some w.cwd }

/-- Model of `readAgentLock` (part_006 line 1023): undefined on a missing or
unparseable file. -/
def readAgentLock (w : LockWorld) : Option AgentLockOwner :=
  match w.lockFile with
  | LockFileState.holds owner => some owner
  | _ => none

/-- Model of `createAgentLock` (part_006 line 1039): exclusive creation (`wx` flag)
fails with EEXIST whenever the file exists, parseable or not. -/
def createAgentLock (w : LockWorld) (owner : AgentLockOwner) : Except String LockWorld :=
  match w.lockFile with
  | LockFileState.absent => Except.ok { w with lockFile := LockFileState.holds owner }
  | _ => Except.error "EEXIST"

/-- Model of `unlink` of the lock path; missing-file errors are swallowed. -/
def unlinkLock (w : LockWorld) : LockWorld :=
  { w with lockFile := LockFileState.absent }

structure AgentLockStatus where
  acquired : Bool
  owner : Option AgentLockOwner
deriving DecidableEq, Repr

/-- The body of the `for (attempt = 0; attempt < 3; ...)` loop of
`acquireAgentLock` (part_006 lines 1054-1076), with the remaining attempt
count as fuel. -/
def acquireLoop (w : LockWorld) (owner : AgentLockOwner) : Nat → LockWorld × AgentLockStatus
  | 0 => (w, { acquired := false, owner := readAgentLock w })
  | fuel + 1 =>
    match createAgentLock w owner with
    | Except.ok w1 => (w1, { acquired := true, owner := some owner })
    | Except.error _ =>
      match readAgentLock w with
      | some existingOwner =>
        if existingOwner.pid == some w.selfPid then
          (w, { acquired := true, owner := some existingOwner })
        else if natTruthy existingOwner.pid
            && processIsAlive w (existingOwner.pid.getD 0) then
          (w, { acquired := false, owner := some existingOwner })
        else acquireLoop (unlinkLock w) owner fuel
      | none => acquireLoop (unlinkLock w) owner fuel

/-- Model of `acquireAgentLock` (part_006 line 1048): three exclusive-creation
attempts. -/
def acquireAgentLock (w : LockWorld) (zellijSession : Option String) :
    LockWorld × AgentLockStatus :=
  acquireLoop w (currentLockOwner w zellijSession) 3

/-! ## State-directory layout

Modelled from the spec: the current `state.ts` is not among the provided
sources — `daemon.ts` and `index.ts` import `STATE_DIR`,
`DAEMON_SOCKET_PATH`, `processIsAlive` and `readAgentLockOwner` from
`./state.js`, and no provided file exports those (part_006 holds two older
revisions of `state.ts` with neither the socket path nor those exports).
Per spec section 6, the state directory defaults to `<home>/.jelly-j/` and
the environment variable `JELLY_J_STATE_DIR` relocates it; the artifact
file names inside it come from the spec's filesystem layout and, for the
history journal, from part_011's `path.join(STATE_DIR, "history.jsonl")`. -/
def stateDir (env : String → Option String) (home : String) : String :=
  match env "JELLY_J_STATE_DIR" with
  | some d => d
  | none => home ++ "/.jelly-j"

def agentLockPath (env : String → Option String) (home : String) : String :=
  stateDir env home ++ "/agent.lock.json"

def daemonSocketPath (env : String → Option String) (home : String) : String :=
  stateDir env home ++ "/daemon.sock"

def stateFilePath (env : String → Option String) (home : String) : String :=
  stateDir env home ++ "/state.json"

def historyFilePath (env : String → Option String) (home : String) : String :=
  stateDir env home ++ "/history.jsonl"

/-! ## Derived predicates, spec-side functions and concrete scenario inputs -/

def isTextEvent : StreamEvent → Bool
  | StreamEvent.text _ => true
  | _ => false

def isResultErrorEvent : StreamEvent → Bool
  | StreamEvent.resultError _ _ => true
  | _ => false

/-- The event is compatible with a stale-only failed attempt: any event that
is not a structured error, or a structured error whose formatted text
matches the stale pattern. -/
def eventStaleOk : StreamEvent → Bool
  | StreamEvent.resultError subtype errors =>
    isStaleResumeError (formatResultError subtype errors)
  | _ => true

def hasResultErrorEvent (events : List StreamEvent) : Bool :=
  events.any isResultErrorEvent

/-- The formatted structured errors an attempt surfaces, read off the
oracle events. -/
def formattedErrorsOf (events : List StreamEvent) : List String :=
  events.filterMap (fun e =>
    match e with
    | StreamEvent.resultError subtype errors => some (formatResultError subtype errors)
    | _ => none)

def isErrorFrame : Frame → Bool
  | Frame.error _ _ => true
  | _ => false

def isResultErrorFrame : Frame → Bool
  | Frame.resultError _ _ _ => true
  | _ => false

def isChatEndFrame : Frame → Bool
  | Frame.chatEnd _ _ _ => true
  | _ => false

def isChatStartFrame : Frame → Bool
  | Frame.chatStart _ _ _ => true
  | _ => false

def isPongFrame : Frame → Bool
  | Frame.pong _ _ => true
  | _ => false

/-- Whether the executor retries the turn with a fresh session (the two
retry sites, daemon.ts lines 292-299 and 314-321). -/
def turnRetried (requestId : String) (sessionId0 : Option String) (b : TurnBehavior) : Bool :=
  let st1 := (processEvents requestId sessionId0 initAttemptState b.first.events).1
  match b.first.outcome with
  | Except.error msg =>
    shouldRetryWithFreshSession msg sessionId0 st1.assistantText st1.resultErrors
  | Except.ok _ =>
    st1.hadError && shouldRetryWithFreshSession "" sessionId0 st1.assistantText st1.resultErrors

/-- The attempt whose result the turn reports (the retry if one ran). -/
def finalAttempt (requestId : String) (sessionId0 : Option String) (b : TurnBehavior) : AttemptResult :=
  if turnRetried requestId sessionId0 b then b.second else b.first

def chatStartIds (ems : List Emission) : List String :=
  ems.filterMap (fun e =>
    match e.frame with
    | Frame.chatStart rid _ _ => some rid
    | _ => none)

def eventEnqIds : Event → List String
  | Event.line _ (some (ClientMsg.chatRequest rid _ _ _)) => [rid]
  | _ => []

def enqueuedIds : List Event → List String
  | [] => []
  | e :: rest => eventEnqIds e ++ enqueuedIds rest

def chatStartZero (em : Emission) : Bool :=
  match em.frame with
  | Frame.chatStart _ _ q => q == 0
  | _ => true

def queueIds (s : DaemonState) : List String :=
  s.queue.map (fun r => r.requestId)

def inFlightIds (s : DaemonState) : List String :=
  s.inFlight.map (fun x => x.1.requestId)

/-- A turn behaviour that streams one text fragment and succeeds. -/
def plainBehavior : TurnBehavior :=
  { first := { events := [StreamEvent.text "a"], outcome := Except.ok (some "s") },
    second := { events := [], outcome := Except.ok none } }

/-- First attempt throws with a message that matches the stale pattern but
not the exit-code-1 pattern. -/
def staleExnBehavior : TurnBehavior where
  first :=
    { events := [], outcome := Except.error "No conversation found with session ID 123" }
  second := { events := [StreamEvent.text "ok"], outcome := Except.ok (some "s2") }

/-- First attempt throws with the runtime-crash message, which does not
match the stale pattern. -/
def exit1Behavior : TurnBehavior where
  first :=
    { events := [], outcome := Except.error "Claude Code process exited with code 1" }
  second := { events := [StreamEvent.text "hello"], outcome := Except.ok (some "s2") }

/-- First attempt returns normally after surfacing one stale structured
error; the retry streams text and succeeds. -/
def staleResultBehavior : TurnBehavior where
  first :=
    { events :=
        [StreamEvent.resultError "error_during_execution"
          ["No conversation found with session ID 9"]],
      outcome := Except.ok (some "s1") }
  second := { events := [StreamEvent.text "hi"], outcome := Except.ok (some "s2") }

/-- Scenario: a transport connects and sends a chat_request without ever
registering. -/
def scenUnregistered : List Event :=
  [Event.connect 1, Event.line 1 (some (ClientMsg.chatRequest "r1" "c1" "hi" none))]

/-- Scenario: three registered clients enqueue three requests; the turns
complete one by one. -/
def scenThreeRequests : List Event :=
  [Event.connect 1, Event.line 1 (some (ClientMsg.registerClient "c1" none)),
   Event.connect 2, Event.line 2 (some (ClientMsg.registerClient "c2" none)),
   Event.connect 3, Event.line 3 (some (ClientMsg.registerClient "c3" none)),
   Event.line 1 (some (ClientMsg.chatRequest "r1" "c1" "one" none)),
   Event.line 2 (some (ClientMsg.chatRequest "r2" "c2" "two" none)),
   Event.line 3 (some (ClientMsg.chatRequest "r3" "c3" "three" none)),
   Event.complete plainBehavior, Event.complete plainBehavior,
   Event.complete plainBehavior]

/-- The prefix of `scenThreeRequests` up to and including the first turn
completion (the step that dequeues `r2` while `r3` is still queued). -/
def scenThreeRequestsHead : List Event := scenThreeRequests.take 10

/-- Scenario: client id `c` registers on socket 1, registers again on
socket 2, then socket 1 closes and the (still connected) socket 2 client is
pinged. -/
def scenReRegister : List Event :=
  [Event.connect 1, Event.line 1 (some (ClientMsg.registerClient "c" none)),
   Event.connect 2, Event.line 2 (some (ClientMsg.registerClient "c" none)),
   Event.closeSock 1,
   Event.line 2 (some (ClientMsg.ping "p1" "c"))]

/-- A well-formed journal line with the given text. -/
def userLine (t : String) : JournalLine :=
  JournalLine.record
    { timestamp := some "ts", session := none, role := some "user", text := some t }

def sampleJournal : List JournalLine :=
  [userLine "a", JournalLine.malformed, userLine "b"]

/-- A lock owner record naming pid 42. -/
def sampleOwner : AgentLockOwner :=
  { pid := some 42, startedAt := none, hostname := none,
    zellijSession := none, cwd := none }

/-- Lock world: the lock file records pid 42, which is alive. -/
def aliveLockWorld : LockWorld :=
  { lockFile := LockFileState.holds sampleOwner,
    aliveSet := [42], permSet := [], selfPid := 7,
    now := "t0", hostname := "h", cwd := "/w" }

/-- Same lock file, but pid 42 is gone. -/
def deadLockWorld : LockWorld := { aliveLockWorld with aliveSet := [] }

/-- Same lock file; probing pid 42 raises EPERM. -/
def permLockWorld : LockWorld := { aliveLockWorld with aliveSet := [], permSet := [42] }

/-- Environment with the state-dir override set. -/
def envOverride : String → Option String :=
  fun k => if k == "JELLY_J_STATE_DIR" then some "/tmp/jj" else none

/-- Environment with no override. -/
def envPlain : String → Option String := fun _ => none

/-! ## Theorems -/

/-- The last `k` elements of a list, written take-from-the-reverse, equal
the drop form used by `slice(-k)`. -/
theorem takeLastEq (l : List α) (k : Nat) :
    (l.reverse.take k).reverse = l.drop (l.length - k) := by
  rw [List.reverse_take]
  simp

/-- Claim C8 (amended): for every limit ≥ 1, a history snapshot returns the last
`limit` well-formed entries of the journal in original append order (the
code clamps the limit to at least one, so limit 0 behaves like limit 1);
the default limit is 80; malformed lines are skipped without aborting the
read (they are dropped by the per-line parse); a missing history file
yields an empty list. -/
theorem C8_read_snapshot (file : Option (List JournalLine)) (now : String)
    (limit : Nat) (h : 1 ≤ limit) :
    readHistorySnapshot file now limit = specReadSnapshot file now limit ∧
    MAX_SNAPSHOT_ENTRIES = 80 ∧
    readHistorySnapshot none now limit = [] := by
  refine ⟨?_, rfl, rfl⟩
  cases file with
  | none => rfl
  | some lines =>
    simp only [readHistorySnapshot, specReadSnapshot, takeLastEq, Nat.max_eq_right h]

theorem C8_read_snapshot_witness :
    1 ≤ 2 ∧
    (readHistorySnapshot (some sampleJournal) "now" 2 =
        specReadSnapshot (some sampleJournal) "now" 2 ∧
      MAX_SNAPSHOT_ENTRIES = 80 ∧
      readHistorySnapshot none "now" 2 = []) :=
  ⟨by decide, C8_read_snapshot (some sampleJournal) "now" 2 (by decide)⟩

/-- Claim C8 counterexample: with limit 0 the code returns the last one entry
(`slice(-Math.max(1, 0))`), not the last zero entries the claim's
universal "for every limit" promises. -/
theorem C8_limit_zero_cex :
    readHistorySnapshot (some sampleJournal) "now" 0 ≠
      specReadSnapshot (some sampleJournal) "now" 0 := by
  decide

/-- Claim C9 (spec-modelled): setting JELLY_J_STATE_DIR relocates the lock
record, daemon socket, state file and history journal to that directory;
unset, all four live under `<home>/.jelly-j/`. -/
theorem C9_state_dir (env : String → Option String) (home d : String) :
    (env "JELLY_J_STATE_DIR" = some d →
      stateDir env home = d ∧
      agentLockPath env home = d ++ "/agent.lock.json" ∧
      daemonSocketPath env home = d ++ "/daemon.sock" ∧
      stateFilePath env home = d ++ "/state.json" ∧
      historyFilePath env home = d ++ "/history.jsonl") ∧
    (env "JELLY_J_STATE_DIR" = none →
      stateDir env home = home ++ "/.jelly-j" ∧
      agentLockPath env home = (home ++ "/.jelly-j") ++ "/agent.lock.json" ∧
      daemonSocketPath env home = (home ++ "/.jelly-j") ++ "/daemon.sock" ∧
      stateFilePath env home = (home ++ "/.jelly-j") ++ "/state.json" ∧
      historyFilePath env home = (home ++ "/.jelly-j") ++ "/history.jsonl") := by
  constructor <;> intro h <;>
    simp [stateDir, agentLockPath, daemonSocketPath, stateFilePath, historyFilePath, h]

theorem C9_state_dir_witness :
    (envOverride "JELLY_J_STATE_DIR" = some "/tmp/jj" ∧
      stateDir envOverride "/home/u" = "/tmp/jj") ∧
    (envPlain "JELLY_J_STATE_DIR" = none ∧
      stateDir envPlain "/home/u" = "/home/u/.jelly-j") :=
  ⟨⟨by decide, ((C9_state_dir envOverride "/home/u" "/tmp/jj").1 (by decide)).1⟩,
   ⟨rfl, ((C9_state_dir envPlain "/home/u" "/tmp/jj").2 rfl).1⟩⟩

/-- Claim C3: an acquire attempt against a lock whose recorded owner is another
pid answers `acquired := false` and leaves the world untouched whenever the
owner probes alive; a pid that can only be probed with permission denied
(EPERM) counts as alive; and when the owner probes dead, the stale file is
deleted and the lock is acquired within the three exclusive-creation
attempts, recording this process as owner. -/
theorem C3_singleton_lock (w : LockWorld) (zs : Option String)
    (owner : AgentLockOwner) (p : Nat)
    (hfile : w.lockFile = LockFileState.holds owner)
    (hpid : owner.pid = some p) (hp0 : p ≠ 0) (hnotself : p ≠ w.selfPid) :
    (w.permSet.contains p = true → processIsAlive w p = true) ∧
    (processIsAlive w p = true →
      (acquireAgentLock w zs).2.acquired = false ∧
      (acquireAgentLock w zs).2.owner = some owner ∧
      (acquireAgentLock w zs).1 = w) ∧
    (processIsAlive w p = false →
      (acquireAgentLock w zs).2.acquired = true ∧
      (acquireAgentLock w zs).1.lockFile =
        LockFileState.holds (currentLockOwner w zs)) := by
  refine ⟨fun hp => ?_, ?_, ?_⟩
  · have hp1 : p ∈ w.permSet := by simpa using hp
    simp [processIsAlive, killProbe, hp1]
  · intro halive
    simp [acquireAgentLock, acquireLoop, createAgentLock, readAgentLock, unlinkLock,
      hfile, hpid, natTruthy, hp0, hnotself, halive]
  · intro hdead
    simp [acquireAgentLock, acquireLoop, createAgentLock, readAgentLock, unlinkLock,
      hfile, hpid, natTruthy, hp0, hnotself, hdead]

theorem C3_singleton_lock_witness :
    ((acquireAgentLock aliveLockWorld none).2.acquired = false ∧
      (acquireAgentLock aliveLockWorld none).1 = aliveLockWorld) ∧
    (acquireAgentLock deadLockWorld none).2.acquired = true ∧
    (processIsAlive permLockWorld 42 = true ∧
      (acquireAgentLock permLockWorld none).2.acquired = false) :=
  ⟨⟨((C3_singleton_lock aliveLockWorld none sampleOwner 42 (by decide) (by decide)
        (by decide) (by decide)).2.1 (by decide)).1,
    ((C3_singleton_lock aliveLockWorld none sampleOwner 42 (by decide) (by decide)
        (by decide) (by decide)).2.1 (by decide)).2.2⟩,
   ((C3_singleton_lock deadLockWorld none sampleOwner 42 (by decide) (by decide)
        (by decide) (by decide)).2.2 (by decide)).1,
   ⟨(C3_singleton_lock permLockWorld none sampleOwner 42 (by decide) (by decide)
        (by decide) (by decide)).1 (by decide),
    ((C3_singleton_lock permLockWorld none sampleOwner 42 (by decide) (by decide)
        (by decide) (by decide)).2.1 (by decide)).1⟩⟩

/-- Unfolding `processEvents` on a cons cell (structure eta for pairs). -/
theorem processEvents_cons (rid : String) (sid : Option String) (st : AttemptState)
    (e : StreamEvent) (rest : List StreamEvent) :
    processEvents rid sid st (e :: rest) =
      ((processEvents rid sid (processEvent rid sid st e).1 rest).1,
        (processEvent rid sid st e).2 ++
          (processEvents rid sid (processEvent rid sid st e).1 rest).2) := rfl

/-- Attempt streams never emit `chat_end`, `chat_start` or `error` frames. -/
theorem processEvents_frames_kinds (rid : String) (sid : Option String) :
    ∀ (evs : List StreamEvent) (st : AttemptState),
      ((processEvents rid sid st evs).2.all
        (fun f => !isChatEndFrame f && !isChatStartFrame f && !isErrorFrame f)) = true := by
  intro evs
  induction evs with
  | nil => intro st; rfl
  | cons e rest ih =>
    intro st
    rw [processEvents_cons]
    simp only [List.all_append, Bool.and_eq_true]
    refine ⟨?_, ih _⟩
    cases e with
    | text t => simp [processEvent, isChatEndFrame, isChatStartFrame, isErrorFrame]
    | toolUse n => simp [processEvent, isChatEndFrame, isChatStartFrame, isErrorFrame]
    | resultError subtype errors =>
      simp only [processEvent]
      split <;> simp [isChatEndFrame, isChatStartFrame, isErrorFrame]
    | permissionRequest toolName reason =>
      simp [processEvent, isChatEndFrame, isChatStartFrame, isErrorFrame]

/-- The `hadError` flag after an attempt records exactly whether a
structured error event occurred. -/
theorem processEvents_hadError (rid : String) (sid : Option String) :
    ∀ (evs : List StreamEvent) (st : AttemptState),
      ((processEvents rid sid st evs).1).hadError
        = (st.hadError || hasResultErrorEvent evs) := by
  intro evs
  induction evs with
  | nil => intro st; simp [processEvents, hasResultErrorEvent]
  | cons e rest ih =>
    intro st
    rw [processEvents_cons]
    cases e with
    | text t => simp [processEvent, hasResultErrorEvent, isResultErrorEvent, ih]
    | toolUse n => simp [processEvent, hasResultErrorEvent, isResultErrorEvent, ih]
    | resultError subtype errors =>
      simp only [processEvent]
      split <;>
        simp [hasResultErrorEvent, isResultErrorEvent, ih]
    | permissionRequest toolName reason =>
      simp [processEvent, hasResultErrorEvent, isResultErrorEvent, ih]

/-- The `resultErrors` accumulator collects the formatted structured
errors in stream order. -/
theorem processEvents_resultErrors (rid : String) (sid : Option String) :
    ∀ (evs : List StreamEvent) (st : AttemptState),
      ((processEvents rid sid st evs).1).resultErrors
        = st.resultErrors ++ formattedErrorsOf evs := by
  intro evs
  induction evs with
  | nil => intro st; simp [processEvents, formattedErrorsOf]
  | cons e rest ih =>
    intro st
    rw [processEvents_cons]
    cases e with
    | text t => simp [processEvent, formattedErrorsOf, ih]
    | toolUse n => simp [processEvent, formattedErrorsOf, ih]
    | resultError subtype errors =>
      simp only [processEvent]
      split <;> simp [formattedErrorsOf, ih]
    | permissionRequest toolName reason =>
      simp [processEvent, formattedErrorsOf, ih]

/-- Without text events the assistant-text accumulator is unchanged. -/
theorem processEvents_assistantText (rid : String) (sid : Option String) :
    ∀ (evs : List StreamEvent) (st : AttemptState),
      evs.all (fun e => !isTextEvent e) = true →
      ((processEvents rid sid st evs).1).assistantText = st.assistantText := by
  intro evs
  induction evs with
  | nil => intro st _; rfl
  | cons e rest ih =>
    intro st h
    simp only [List.all_cons, Bool.and_eq_true] at h
    rw [processEvents_cons]
    cases e with
    | text t => simp [isTextEvent] at h
    | toolUse n => exact ih _ h.2
    | resultError subtype errors =>
      simp only [processEvent]
      split <;> exact ih _ h.2
    | permissionRequest toolName reason => exact ih _ h.2

/-- With a (truthy) resume token held, no assistant text accumulated, and
every structured error matching the stale pattern, every structured error
is buffered: the attempt stream forwards no `result_error` frame. -/
theorem processEvents_buffered (rid : String) (s0 : String)
    (hs : s0.data.isEmpty = false) :
    ∀ (evs : List StreamEvent) (st : AttemptState),
      st.assistantText = "" →
      evs.all (fun e => !isTextEvent e) = true →
      evs.all eventStaleOk = true →
      ((processEvents rid (some s0) st evs).2.all
        (fun f => !isResultErrorFrame f)) = true := by
  intro evs
  induction evs with
  | nil => intro st _ _ _; rfl
  | cons e rest ih =>
    intro st hat htext hstale
    simp only [List.all_cons, Bool.and_eq_true] at htext hstale
    rw [processEvents_cons]
    simp only [List.all_append, Bool.and_eq_true]
    cases e with
    | text t => simp [isTextEvent] at htext
    | toolUse n =>
      exact ⟨by simp [processEvent, isResultErrorFrame], ih _ (by simp [processEvent, hat]) htext.2 hstale.2⟩
    | resultError subtype errors =>
      have hrec : isRecoverableResumeResultError (some s0) ""
          (formatResultError subtype errors) = true := by
        simp only [eventStaleOk] at hstale
        simp [isRecoverableResumeResultError, strTruthy, hs, strTrim,
          dropLeadingWs, hstale.1]
      refine ⟨?_, ih _ (by simp [processEvent, hat, hrec]) htext.2 hstale.2⟩
      simp [processEvent, hat, hrec]
    | permissionRequest toolName reason =>
      exact ⟨by simp [processEvent, isResultErrorFrame], ih _ (by simp [processEvent, hat]) htext.2 hstale.2⟩

/-- Without structured error events the attempt stream forwards no
`result_error` frame. -/
theorem processEvents_no_resultError_frames (rid : String) (sid : Option String) :
    ∀ (evs : List StreamEvent) (st : AttemptState),
      hasResultErrorEvent evs = false →
      ((processEvents rid sid st evs).2.all (fun f => !isResultErrorFrame f)) = true := by
  intro evs
  induction evs with
  | nil => intro st _; rfl
  | cons e rest ih =>
    intro st h
    simp only [hasResultErrorEvent, List.any_cons, Bool.or_eq_false_iff] at h
    rw [processEvents_cons]
    simp only [List.all_append, Bool.and_eq_true]
    cases e with
    | text t => exact ⟨by simp [processEvent, isResultErrorFrame], ih _ h.2⟩
    | toolUse n => exact ⟨by simp [processEvent, isResultErrorFrame], ih _ h.2⟩
    | resultError subtype errors => simp [isResultErrorEvent] at h
    | permissionRequest toolName reason =>
      exact ⟨by simp [processEvent, isResultErrorFrame], ih _ h.2⟩

/-- Stale-only events give stale-only formatted errors. -/
theorem formattedErrorsOf_stale :
    ∀ (evs : List StreamEvent), evs.all eventStaleOk = true →
      (formattedErrorsOf evs).all isStaleResumeError = true := by
  intro evs
  induction evs with
  | nil => intro _; rfl
  | cons e rest ih =>
    intro h
    simp only [List.all_cons, Bool.and_eq_true] at h
    cases e with
    | text t => simpa [formattedErrorsOf] using ih h.2
    | toolUse n => simpa [formattedErrorsOf] using ih h.2
    | resultError subtype errors =>
      simp only [eventStaleOk] at h
      simpa [formattedErrorsOf, h.1] using ih h.2
    | permissionRequest toolName reason => simpa [formattedErrorsOf] using ih h.2

/-- A structured error event makes the formatted error list nonempty. -/
theorem formattedErrorsOf_ne_nil :
    ∀ (evs : List StreamEvent), hasResultErrorEvent evs = true →
      (formattedErrorsOf evs).isEmpty = false := by
  intro evs
  induction evs with
  | nil => intro h; simp [hasResultErrorEvent] at h
  | cons e rest ih =>
    intro h
    cases e with
    | resultError subtype errors => simp [formattedErrorsOf]
    | text t =>
      have h1 : hasResultErrorEvent rest = true := by
        simpa [hasResultErrorEvent, isResultErrorEvent] using h
      simpa [formattedErrorsOf] using ih h1
    | toolUse n =>
      have h1 : hasResultErrorEvent rest = true := by
        simpa [hasResultErrorEvent, isResultErrorEvent] using h
      simpa [formattedErrorsOf] using ih h1
    | permissionRequest toolName reason =>
      have h1 : hasResultErrorEvent rest = true := by
        simpa [hasResultErrorEvent, isResultErrorEvent] using h
      simpa [formattedErrorsOf] using ih h1

/-- Frame lists free of `chat_end`/`chat_start`/`error` count no
`chat_end`. -/
theorem kinds_countP_chatEnd_zero {l : List Frame}
    (h : l.all (fun f => !isChatEndFrame f && !isChatStartFrame f && !isErrorFrame f) = true) :
    l.countP (fun f => isChatEndFrame f) = 0 := by
  rw [List.countP_eq_zero]
  intro f hf
  have h2 := List.all_eq_true.mp h f hf
  simp only [Bool.and_eq_true, Bool.not_eq_true'] at h2
  simp [h2.1]

/-- Lemma: `catchTurn` ends the frame list with exactly one `chat_end`, carrying
`ok := false`. -/
theorem catchTurn_end (rid : String) (model : ModelAlias) (pre : List Frame)
    (msg : String) (sidNow : Option String)
    (hpre : pre.countP (fun f => isChatEndFrame f) = 0) :
    ((catchTurn rid model pre msg sidNow).frames.countP (fun f => isChatEndFrame f) = 1) ∧
    (catchTurn rid model pre msg sidNow).frames.getLast? =
      some (Frame.chatEnd rid false model) := by
  constructor
  · show (pre ++ [Frame.error (some rid) msg, Frame.chatEnd rid false model]).countP
      (fun f => isChatEndFrame f) = 1
    rw [List.countP_append, hpre]
    simp [List.countP_cons, isChatEndFrame]
  · show (pre ++ [Frame.error (some rid) msg, Frame.chatEnd rid false model]).getLast? = _
    rw [show pre ++ [Frame.error (some rid) msg, Frame.chatEnd rid false model]
        = (pre ++ [Frame.error (some rid) msg]) ++ [Frame.chatEnd rid false model] by simp]
    exact List.getLast?_concat _

/-- Lemma: `finishTurn` ends the frame list with exactly one `chat_end`, carrying
`ok := !hadError`. -/
theorem finishTurn_end (rid : String) (model : ModelAlias) (pre : List Frame)
    (st : AttemptState) (sid : Option String)
    (hpre : pre.countP (fun f => isChatEndFrame f) = 0) :
    ((finishTurn rid model pre st sid).frames.countP (fun f => isChatEndFrame f) = 1) ∧
    (finishTurn rid model pre st sid).frames.getLast? =
      some (Frame.chatEnd rid (!st.hadError) model) := by
  constructor
  · show (pre ++ [Frame.chatEnd rid (!st.hadError) model]).countP
      (fun f => isChatEndFrame f) = 1
    rw [List.countP_append, hpre]
    simp [List.countP_cons, isChatEndFrame]
  · show (pre ++ [Frame.chatEnd rid (!st.hadError) model]).getLast? = _
    exact List.getLast?_concat _

/-- Claim C4: every dequeued turn emits exactly one `chat_end`; it is the last
frame of the turn, and its `ok` field is true exactly when the attempt
whose result the turn reports (after any stale-resume retry) surfaced no
structured result error and returned without an adapter exception. -/
theorem C4_exactly_one_chat_end (rid : String) (sid0 : Option String)
    (model : ModelAlias) (b : TurnBehavior) :
    ((runTurn rid sid0 model b).frames.countP (fun f => isChatEndFrame f) = 1) ∧
    (∃ ok, (runTurn rid sid0 model b).frames.getLast? =
        some (Frame.chatEnd rid ok model) ∧
      (ok = true ↔ (hasResultErrorEvent (finalAttempt rid sid0 b).events = false ∧
        ∃ sid, (finalAttempt rid sid0 b).outcome = Except.ok sid))) := by
  obtain ⟨⟨ev1, out1⟩, ev2, out2⟩ := b
  have hz1 := kinds_countP_chatEnd_zero (processEvents_frames_kinds rid sid0 ev1 initAttemptState)
  have hz2 := kinds_countP_chatEnd_zero (processEvents_frames_kinds rid none ev2 initAttemptState)
  have he1 := processEvents_hadError rid sid0 ev1 initAttemptState
  have he2 := processEvents_hadError rid none ev2 initAttemptState
  have hznote : ∀ (note : String),
      ((processEvents rid sid0 initAttemptState ev1).2 ++ [Frame.statusNote note]
        ++ (processEvents rid none initAttemptState ev2).2).countP
        (fun f => isChatEndFrame f) = 0 := by
    intro note
    rw [List.countP_append, List.countP_append, hz1, hz2]
    simp [List.countP_cons, isChatEndFrame]
  simp only [runTurn, finalAttempt, turnRetried]
  cases out1 with
  | error msg =>
    dsimp only
    by_cases hr : shouldRetryWithFreshSession msg sid0
        (processEvents rid sid0 initAttemptState ev1).1.assistantText
        (processEvents rid sid0 initAttemptState ev1).1.resultErrors = true
    · rw [if_pos hr, if_pos hr]
      cases out2 with
      | error msg2 =>
        dsimp only
        refine ⟨(catchTurn_end rid model _ msg2 none (hznote _)).1, false, ?_, by simp⟩
        exact (catchTurn_end rid model _ msg2 none (hznote _)).2
      | ok sid2 =>
        dsimp only
        refine ⟨(finishTurn_end rid model _ _ sid2 (hznote _)).1,
          !(processEvents rid none initAttemptState ev2).1.hadError, ?_, ?_⟩
        · exact (finishTurn_end rid model _ _ sid2 (hznote _)).2
        · rw [he2]
          simp [initAttemptState]
    · rw [if_neg hr, if_neg hr]
      refine ⟨(catchTurn_end rid model _ msg sid0 hz1).1, false, ?_, by simp⟩
      exact (catchTurn_end rid model _ msg sid0 hz1).2
  | ok sid1 =>
    dsimp only
    by_cases hr : ((processEvents rid sid0 initAttemptState ev1).1.hadError
        && shouldRetryWithFreshSession "" sid0
          (processEvents rid sid0 initAttemptState ev1).1.assistantText
          (processEvents rid sid0 initAttemptState ev1).1.resultErrors) = true
    · rw [if_pos hr, if_pos hr]
      cases out2 with
      | error msg2 =>
        dsimp only
        refine ⟨(catchTurn_end rid model _ msg2 none (hznote _)).1, false, ?_, by simp⟩
        exact (catchTurn_end rid model _ msg2 none (hznote _)).2
      | ok sid2 =>
        dsimp only
        refine ⟨(finishTurn_end rid model _ _ sid2 (hznote _)).1,
          !(processEvents rid none initAttemptState ev2).1.hadError, ?_, ?_⟩
        · exact (finishTurn_end rid model _ _ sid2 (hznote _)).2
        · rw [he2]
          simp [initAttemptState]
    · rw [if_neg hr, if_neg hr]
      refine ⟨(finishTurn_end rid model _ _ sid1 hz1).1,
        !(processEvents rid sid0 initAttemptState ev1).1.hadError, ?_, ?_⟩
      · exact (finishTurn_end rid model _ _ sid1 hz1).2
      · rw [he1]
        simp [initAttemptState]

theorem all_and {α : Type} {p q : α → Bool} {l : List α}
    (hp : l.all p = true) (hq : l.all q = true) :
    l.all (fun a => p a && q a) = true := by
  rw [List.all_eq_true] at *
  intro a ha
  simp [hp a ha, hq a ha]

theorem all_mono {α : Type} {p q : α → Bool} {l : List α} (h : l.all p = true)
    (himp : ∀ a, p a = true → q a = true) : l.all q = true := by
  rw [List.all_eq_true] at *
  intro a ha
  exact himp a (h a ha)

/-- With a truthy token, no assistant text and stale-only nonempty
structured errors, the retry guard fires. -/
theorem shouldRetry_of_stale (errorMessage : String) (s0 : String) (re : List String)
    (hs : s0.data.isEmpty = false)
    (hre : hasOnlyStaleResumeErrors re = true) :
    shouldRetryWithFreshSession errorMessage (some s0) "" re = true := by
  have h0 : strTruthy (some s0) = true := by simp [strTruthy, hs]
  have h1 : ¬((strTrim "").length > 0) := by decide
  unfold shouldRetryWithFreshSession
  rw [h0]
  simp only [Bool.not_true, Bool.false_eq_true, if_false]
  rw [if_neg h1]
  simp [hre]

/-- When the surfaced structured errors are not stale-only and the
exception message does not match the crash pattern, the retry guard never
fires. -/
theorem shouldRetry_false_of_unmatched (msg : String) (sid : Option String)
    (assistantText : String) (re : List String)
    (h1 : hasOnlyStaleResumeErrors re = false)
    (h2 : regexTestCI "claude code process exited with code 1" msg = false) :
    shouldRetryWithFreshSession msg sid assistantText re = false := by
  simp [shouldRetryWithFreshSession, h1, h2]

/-- Claim C1 (amended): when the Model Runtime surfaces structured errors that
all match the stale-conversation pattern (at least one) before any
assistant text, while a resume token is held, and the attempt returns
normally, the daemon forwards none of them, emits the fresh-session-retry
`status_note`, discards the resume token and retries the turn once without
it; when the retry surfaces no structured error and returns normally, the
client observes neither a `result_error` nor an `error` frame, receives
`chat_end` with `ok := true`, and the daemon adopts the retry's session id.
(Unlike the claim's wording, an adapter *exception* whose text matches the
stale pattern does not trigger the retry; see the counterexample.) -/
theorem C1_stale_resume_recovery (rid : String) (s0 : String) (model : ModelAlias)
    (b : TurnBehavior) (sid1 sid2 : Option String)
    (hs : s0.data.isEmpty = false)
    (htext : b.first.events.all (fun e => !isTextEvent e) = true)
    (hstale : b.first.events.all eventStaleOk = true)
    (hsome : hasResultErrorEvent b.first.events = true)
    (hout1 : b.first.outcome = Except.ok sid1)
    (hev2 : hasResultErrorEvent b.second.events = false)
    (hout2 : b.second.outcome = Except.ok sid2) :
    ((runTurn rid (some s0) model b).frames.all
        (fun f => !isResultErrorFrame f && !isErrorFrame f) = true) ∧
    (Frame.statusNote "stale Claude session detected; retrying with a fresh session")
      ∈ (runTurn rid (some s0) model b).frames ∧
    (runTurn rid (some s0) model b).frames.getLast? =
      some (Frame.chatEnd rid true model) ∧
    (runTurn rid (some s0) model b).sessionId = sid2 := by
  obtain ⟨⟨ev1, out1⟩, ev2, out2⟩ := b
  dsimp only at htext hstale hsome hout1 hev2 hout2
  subst hout1
  subst hout2
  have hat1 : (processEvents rid (some s0) initAttemptState ev1).1.assistantText = "" :=
    processEvents_assistantText rid (some s0) ev1 initAttemptState htext
  have hre1 : (processEvents rid (some s0) initAttemptState ev1).1.resultErrors
      = formattedErrorsOf ev1 :=
    processEvents_resultErrors rid (some s0) ev1 initAttemptState
  have hhe1 : (processEvents rid (some s0) initAttemptState ev1).1.hadError
      = hasResultErrorEvent ev1 :=
    processEvents_hadError rid (some s0) ev1 initAttemptState
  have hhe2 : (processEvents rid none initAttemptState ev2).1.hadError
      = hasResultErrorEvent ev2 :=
    processEvents_hadError rid none ev2 initAttemptState
  have hstaleRe : hasOnlyStaleResumeErrors (formattedErrorsOf ev1) = true := by
    simp [hasOnlyStaleResumeErrors, formattedErrorsOf_ne_nil ev1 hsome,
      formattedErrorsOf_stale ev1 hstale]
  have hretry : shouldRetryWithFreshSession "" (some s0)
      (processEvents rid (some s0) initAttemptState ev1).1.assistantText
      (processEvents rid (some s0) initAttemptState ev1).1.resultErrors = true := by
    rw [hat1, hre1]
    exact shouldRetry_of_stale "" s0 _ hs hstaleRe
  have hcond : ((processEvents rid (some s0) initAttemptState ev1).1.hadError
      && shouldRetryWithFreshSession "" (some s0)
        (processEvents rid (some s0) initAttemptState ev1).1.assistantText
        (processEvents rid (some s0) initAttemptState ev1).1.resultErrors) = true := by
    rw [hhe1, hsome, hretry]
    rfl
  have hhe2f : (processEvents rid none initAttemptState ev2).1.hadError = false := by
    rw [hhe2, hev2]
  have hfr1re := processEvents_buffered rid s0 hs ev1 initAttemptState rfl htext hstale
  have hfr1k := processEvents_frames_kinds rid (some s0) ev1 initAttemptState
  have hfr2re := processEvents_no_resultError_frames rid none ev2 initAttemptState hev2
  have hfr2k := processEvents_frames_kinds rid none ev2 initAttemptState
  have hfr1 : (processEvents rid (some s0) initAttemptState ev1).2.all
      (fun f => !isResultErrorFrame f && !isErrorFrame f) = true :=
    all_and hfr1re (all_mono hfr1k (by
      intro a ha
      simp only [Bool.and_eq_true] at ha
      exact ha.2))
  have hfr2 : (processEvents rid none initAttemptState ev2).2.all
      (fun f => !isResultErrorFrame f && !isErrorFrame f) = true :=
    all_and hfr2re (all_mono hfr2k (by
      intro a ha
      simp only [Bool.and_eq_true] at ha
      exact ha.2))
  simp only [runTurn]
  rw [if_pos hcond]
  refine ⟨?_, ?_, ?_, ?_⟩
  · show ((processEvents rid (some s0) initAttemptState ev1).2
        ++ [Frame.statusNote "stale Claude session detected; retrying with a fresh session"]
        ++ (processEvents rid none initAttemptState ev2).2
        ++ [Frame.chatEnd rid (!(processEvents rid none initAttemptState ev2).1.hadError) model]).all
      (fun f => !isResultErrorFrame f && !isErrorFrame f) = true
    simp only [List.all_append, Bool.and_eq_true]
    refine ⟨⟨⟨hfr1, by simp [isResultErrorFrame, isErrorFrame]⟩, hfr2⟩,
      by simp [isResultErrorFrame, isErrorFrame]⟩
  · show Frame.statusNote "stale Claude session detected; retrying with a fresh session"
      ∈ (processEvents rid (some s0) initAttemptState ev1).2
        ++ [Frame.statusNote "stale Claude session detected; retrying with a fresh session"]
        ++ (processEvents rid none initAttemptState ev2).2
        ++ [Frame.chatEnd rid (!(processEvents rid none initAttemptState ev2).1.hadError) model]
    simp
  · have := (finishTurn_end rid model
      ((processEvents rid (some s0) initAttemptState ev1).2
        ++ [Frame.statusNote "stale Claude session detected; retrying with a fresh session"]
        ++ (processEvents rid none initAttemptState ev2).2)
      (processEvents rid none initAttemptState ev2).1 sid2 (by
        rw [List.countP_append, List.countP_append,
          kinds_countP_chatEnd_zero hfr1k, kinds_countP_chatEnd_zero hfr2k]
        simp [List.countP_cons, isChatEndFrame])).2
    rw [hhe2f] at this
    exact this
  · show (finishTurn rid model _ (processEvents rid none initAttemptState ev2).1 sid2).sessionId = sid2
    rfl

theorem C1_stale_resume_recovery_witness :
    ("sess".data.isEmpty = false ∧
      staleResultBehavior.first.events.all (fun e => !isTextEvent e) = true ∧
      staleResultBehavior.first.events.all eventStaleOk = true ∧
      hasResultErrorEvent staleResultBehavior.first.events = true ∧
      staleResultBehavior.first.outcome = Except.ok (some "s1") ∧
      hasResultErrorEvent staleResultBehavior.second.events = false ∧
      staleResultBehavior.second.outcome = Except.ok (some "s2")) ∧
    ((runTurn "r1" (some "sess") ModelAlias.opus staleResultBehavior).frames.getLast? =
        some (Frame.chatEnd "r1" true ModelAlias.opus) ∧
      (runTurn "r1" (some "sess") ModelAlias.opus staleResultBehavior).sessionId = some "s2") :=
  ⟨⟨by decide, by decide, by decide, by decide, rfl, by decide, rfl⟩,
    (C1_stale_resume_recovery "r1" "sess" ModelAlias.opus staleResultBehavior
      (some "s1") (some "s2") (by decide) (by decide) (by decide) (by decide)
      rfl (by decide) rfl).2.2⟩

/-- Claim C1 counterexample: an adapter *exception* whose text matches the
stale-conversation pattern, thrown before any assistant text with a resume
token held and no structured errors, is not retried: the daemon forwards
the error to the client and ends the turn with `ok := false`, keeping the
resume token. -/
theorem C1_stale_exception_cex :
    isStaleResumeError "No conversation found with session ID 123" = true ∧
    runTurn "r1" (some "sess") ModelAlias.opus staleExnBehavior =
      { frames := [Frame.error (some "r1") "No conversation found with session ID 123",
          Frame.chatEnd "r1" false ModelAlias.opus],
        sessionId := some "sess",
        successPath := false,
        historyAppends :=
          [(HistoryRole.error, "No conversation found with session ID 123")] } := by
  constructor
  · decide
  · decide

/-- Claim C7 (amended): the executor retries only when the surfaced structured
errors are nonempty and all match the stale pattern, or the adapter
exception message matches "claude code process exited with code 1" (with
no, or only stale, structured errors).  For a failing attempt whose
structured errors are not stale-only and whose exception text does not
match the crash pattern, no second attempt is made — the outcome does not
depend on the second oracle attempt — and the failure is forwarded
normally (`error` frame then `chat_end ok := false`), the resume token
left as it was. -/
theorem C7_no_retry_on_unmatched (rid msg : String) (sid0 : Option String)
    (model : ModelAlias) (a : AttemptResult) (b2 b2' : AttemptResult)
    (hout : a.outcome = Except.error msg)
    (hstale : hasOnlyStaleResumeErrors
        ((processEvents rid sid0 initAttemptState a.events).1).resultErrors = false)
    (hexit : regexTestCI "claude code process exited with code 1" msg = false) :
    runTurn rid sid0 model { first := a, second := b2 } =
      runTurn rid sid0 model { first := a, second := b2' } ∧
    (runTurn rid sid0 model { first := a, second := b2 }).frames =
      (processEvents rid sid0 initAttemptState a.events).2 ++
        [Frame.error (some rid) msg, Frame.chatEnd rid false model] ∧
    (runTurn rid sid0 model { first := a, second := b2 }).sessionId = sid0 := by
  obtain ⟨ev1, out1⟩ := a
  dsimp only at hout hstale
  subst hout
  have hno : shouldRetryWithFreshSession msg sid0
      (processEvents rid sid0 initAttemptState ev1).1.assistantText
      (processEvents rid sid0 initAttemptState ev1).1.resultErrors = false :=
    shouldRetry_false_of_unmatched msg sid0 _ _ hstale hexit
  have hno2 : ¬(shouldRetryWithFreshSession msg sid0
      (processEvents rid sid0 initAttemptState ev1).1.assistantText
      (processEvents rid sid0 initAttemptState ev1).1.resultErrors = true) := by
    rw [hno]
    exact Bool.false_ne_true
  simp only [runTurn]
  rw [if_neg hno2, if_neg hno2]
  exact ⟨rfl, rfl, rfl⟩

theorem C7_no_retry_on_unmatched_witness :
    (({ events := [], outcome := Except.error "boom" } : AttemptResult).outcome =
        Except.error "boom" ∧
      hasOnlyStaleResumeErrors
        ((processEvents "r1" (some "sess") initAttemptState
          ({ events := [], outcome := Except.error "boom" } : AttemptResult).events).1).resultErrors
        = false ∧
      regexTestCI "claude code process exited with code 1" "boom" = false) ∧
    (runTurn "r1" (some "sess") ModelAlias.opus
        { first := { events := [], outcome := Except.error "boom" }, second := plainBehavior.first } =
      runTurn "r1" (some "sess") ModelAlias.opus
        { first := { events := [], outcome := Except.error "boom" }, second := plainBehavior.second }) :=
  ⟨⟨rfl, by decide, by decide⟩,
    (C7_no_retry_on_unmatched "r1" "boom" (some "sess") ModelAlias.opus
      { events := [], outcome := Except.error "boom" } plainBehavior.first plainBehavior.second
      rfl (by decide) (by decide)).1⟩

/-- Claim C7 counterexample: an attempt that fails with the crash message
"Claude Code process exited with code 1" — which does not match the
stale-conversation pattern — is nevertheless retried with a fresh session:
the second attempt runs (its delta reaches the client) and the turn ends
ok. -/
theorem C7_exit1_retry_cex :
    regexTestCI "no conversation found with session id"
        "Claude Code process exited with code 1" = false ∧
    runTurn "r1" (some "sess") ModelAlias.opus exit1Behavior =
      { frames := [Frame.statusNote
            "previous Claude session could not be resumed; retrying with a fresh session",
          Frame.chatDelta "r1" "hello",
          Frame.chatEnd "r1" true ModelAlias.opus],
        sessionId := some "s2",
        successPath := true,
        historyAppends := [(HistoryRole.assistant, "hello")] } := by
  constructor
  · decide
  · decide

theorem sendToClientId_frame (s : DaemonState) (c : String) (f : Frame) :
    (sendToClientId s c f).frame = f := by
  unfold sendToClientId
  cases List.lookup c s.clientsById <;> rfl

theorem sendToClientId_unrouted (s : DaemonState) (c : String) (f : Frame)
    (h : List.lookup c s.clientsById = none) :
    sendToClientId s c f = { via := some c, sock := none, frame := f } := by
  unfold sendToClientId
  rw [h]

/-- Claim C5 (amended): the daemon performs no registration gating.  A
`chat_request` from a transport whose clientId is not registered (queue
empty) is accepted — enqueued or immediately started as a turn — and every
frame it generates is addressed to that unregistered clientId and dropped;
no `error` frame is produced for it.  An `error` frame answers only a
frame of unknown type or an undecodable line. -/
theorem C5_no_registration_gating (s : DaemonState) (sock : Nat)
    (rid cid text : String) (zs : Option String)
    (hunreg : List.lookup cid s.clientsById = none)
    (hq : s.queue = []) :
    ((step s (Event.line sock (some (ClientMsg.chatRequest rid cid text zs)))).2.all
        (fun em => (em.via == some cid) && (em.sock == none)) = true) ∧
    ((step s (Event.line sock (some (ClientMsg.chatRequest rid cid text zs)))).2.all
        (fun em => !isErrorFrame em.frame) = true) ∧
    (inFlightIds (step s (Event.line sock (some (ClientMsg.chatRequest rid cid text zs)))).1
      ++ queueIds (step s (Event.line sock (some (ClientMsg.chatRequest rid cid text zs)))).1
      = inFlightIds s ++ [rid]) ∧
    ((step s (Event.line sock (some ClientMsg.unknown))).2 =
      [sendSock s sock (Frame.error none "unsupported message type")]) ∧
    ((step s (Event.line sock none)).2 =
      [sendSock s sock (Frame.error none "invalid json message")]) := by
  refine ⟨?_, ?_, ?_, rfl, rfl⟩ <;>
  · simp only [step, handleMessage, startTurn, hq, hunreg, inFlightIds, queueIds,
      sendToClientId_unrouted, List.lookup]
    cases hp : s.processing <;>
      simp [sendToClientId_unrouted, hunreg, isErrorFrame, inFlightIds, queueIds]

theorem C5_no_registration_gating_witness :
    (List.lookup "c1" ((run (initState none none 7) [Event.connect 1]).1).clientsById = none ∧
      ((run (initState none none 7) [Event.connect 1]).1).queue = []) ∧
    ((step (run (initState none none 7) [Event.connect 1]).1
        (Event.line 1 (some (ClientMsg.chatRequest "r1" "c1" "hi" none)))).2.all
        (fun em => (em.via == some "c1") && (em.sock == none)) = true) :=
  ⟨⟨by decide, by decide⟩,
    (C5_no_registration_gating (run (initState none none 7) [Event.connect 1]).1 1
      "r1" "c1" "hi" none (by decide) (by decide)).1⟩

/-- Claim C5 counterexample: in the connect-then-chat_request scenario the
unregistered transport receives no frame at all — in particular not the
error frame the claim requires — and the request is executed as a turn
(it is in flight after the step). -/
theorem C5_unregistered_cex :
    ((run (initState none none 77) scenUnregistered).2.filter
      (fun em => em.sock == some 1)) = [] ∧
    ((run (initState none none 77) scenUnregistered).2.countP
      (fun em => isErrorFrame em.frame)) = 0 ∧
    inFlightIds (run (initState none none 77) scenUnregistered).1 = ["r1"] := by
  refine ⟨by decide, by decide, by decide⟩

theorem lookup_eraseAssoc_self {κ β : Type} [BEq κ] [LawfulBEq κ] (k : κ)
    (l : List (κ × β)) : List.lookup k (eraseAssoc k l) = none := by
  induction l with
  | nil => rfl
  | cons kv rest ih =>
    obtain ⟨k1, v1⟩ := kv
    by_cases h : k1 = k
    · simpa [eraseAssoc, h] using ih
    · have hb : (k1 == k) = false := by simp [h]
      have hb2 : (k == k1) = false := by
        simp
        intro he
        exact h he.symm
      simp [eraseAssoc, hb, List.lookup, hb2, ih]

theorem lookup_setAssoc_self {κ β : Type} [BEq κ] [LawfulBEq κ] (k : κ) (v : β)
    (l : List (κ × β)) : List.lookup k (setAssoc k v l) = some v := by
  induction l with
  | nil => simp [setAssoc, List.lookup]
  | cons kv rest ih =>
    obtain ⟨k1, v1⟩ := kv
    by_cases h : k1 = k
    · simp [setAssoc, h, List.lookup]
    · have hb : (k1 == k) = false := by simp [h]
      have hb2 : (k == k1) = false := by
        simp
        intro he
        exact h he.symm
      simp [setAssoc, hb, List.lookup, hb2, ih]

/-- Claim C10: a `register_client` carrying an already-held clientId re-points
the client-identifier map at the registering transport; when the older
transport then closes, the close handler deletes that clientId from the
map unconditionally — it never checks which connection the entry currently
references — so a frame routed by that clientId is dropped (unrouted) even
though the newer registration is still connected, until a fresh
`register_client`; the re-register / close / ping scenario exhibits the
dropped pong. -/
theorem C10_close_drops_reregistered (s : DaemonState) (sock1 sock2 : Nat)
    (cid : String) (conn : Connection)
    (hconn : List.lookup sock1 s.conns = some conn)
    (hcid : conn.clientId = some cid) :
    (∀ zs, List.lookup cid
        ((step s (Event.line sock2 (some (ClientMsg.registerClient cid zs)))).1.clientsById)
      = some sock2) ∧
    (List.lookup cid ((step s (Event.closeSock sock1)).1.clientsById) = none) ∧
    (∀ f, List.lookup cid s.clientsById = none →
      sendToClientId s cid f = { via := some cid, sock := none, frame := f }) ∧
    ((run (initState none none 77) scenReRegister).2.filter
        (fun em => isPongFrame em.frame) =
      [{ via := some "c", sock := none, frame := Frame.pong "p1" 77 }]) := by
  refine ⟨?_, ?_, ?_, by decide⟩
  · intro zs
    simp only [step, handleMessage]
    exact lookup_setAssoc_self cid sock2 _
  · simp only [step, getConn, hconn, hcid, Option.getD_some]
    exact lookup_eraseAssoc_self cid _
  · intro f h
    exact sendToClientId_unrouted s cid f h

theorem C10_close_drops_reregistered_witness :
    (List.lookup 1 ((run (initState none none 77) (scenReRegister.take 4)).1).conns =
        some { clientId := some "c", zellijSession := none } ∧
      ({ clientId := some "c", zellijSession := none } : Connection).clientId = some "c") ∧
    List.lookup "c"
        ((step (run (initState none none 77) (scenReRegister.take 4)).1
          (Event.closeSock 1)).1.clientsById) = none :=
  ⟨⟨by decide, rfl⟩,
    (C10_close_drops_reregistered (run (initState none none 77) (scenReRegister.take 4)).1
      1 2 "c" { clientId := some "c", zellijSession := none } (by decide) rfl).2.1⟩

/-- A turn body never emits a `chat_start`. -/
theorem runTurn_no_chatStart (rid : String) (sid0 : Option String) (model : ModelAlias)
    (b : TurnBehavior) :
    (runTurn rid sid0 model b).frames.all (fun f => !isChatStartFrame f) = true := by
  obtain ⟨⟨ev1, out1⟩, ev2, out2⟩ := b
  have h1 : (processEvents rid sid0 initAttemptState ev1).2.all
      (fun f => !isChatStartFrame f) = true :=
    all_mono (processEvents_frames_kinds rid sid0 ev1 initAttemptState) (fun a ha => by
      simp only [Bool.and_eq_true] at ha
      exact ha.1.2)
  have h2 : (processEvents rid none initAttemptState ev2).2.all
      (fun f => !isChatStartFrame f) = true :=
    all_mono (processEvents_frames_kinds rid none ev2 initAttemptState) (fun a ha => by
      simp only [Bool.and_eq_true] at ha
      exact ha.1.2)
  have hnote : ∀ (note : String), ((processEvents rid sid0 initAttemptState ev1).2
      ++ [Frame.statusNote note] ++ (processEvents rid none initAttemptState ev2).2).all
      (fun f => !isChatStartFrame f) = true := by
    intro note
    simp only [List.all_append, Bool.and_eq_true]
    exact ⟨⟨h1, by simp [isChatStartFrame]⟩, h2⟩
  have hcatch : ∀ (pre : List Frame) (msg : String) (sid : Option String),
      pre.all (fun f => !isChatStartFrame f) = true →
      (catchTurn rid model pre msg sid).frames.all (fun f => !isChatStartFrame f) = true := by
    intro pre msg sid h
    simp only [catchTurn, List.all_append, Bool.and_eq_true]
    exact ⟨h, by simp [isChatStartFrame]⟩
  have hfinish : ∀ (pre : List Frame) (st : AttemptState) (sid : Option String),
      pre.all (fun f => !isChatStartFrame f) = true →
      (finishTurn rid model pre st sid).frames.all (fun f => !isChatStartFrame f) = true := by
    intro pre st sid h
    simp only [finishTurn, List.all_append, Bool.and_eq_true]
    exact ⟨h, by simp [isChatStartFrame]⟩
  simp only [runTurn]
  cases out1 with
  | error msg =>
    dsimp only
    split
    · cases out2 with
      | error msg2 => exact hcatch _ _ _ (hnote _)
      | ok sid2 => exact hfinish _ _ _ (hnote _)
    · exact hcatch _ _ _ h1
  | ok sid1 =>
    dsimp only
    split
    · cases out2 with
      | error msg2 => exact hcatch _ _ _ (hnote _)
      | ok sid2 => exact hfinish _ _ _ (hnote _)
    · exact hfinish _ _ _ h1

theorem all_chatStartZero_of_no_chatStart (ems : List Emission)
    (h : ems.all (fun em => !isChatStartFrame em.frame) = true) :
    ems.all chatStartZero = true := by
  rw [List.all_eq_true] at h ⊢
  intro em hm
  have h2 := h em hm
  unfold chatStartZero
  cases hf : em.frame <;> rw [hf] at h2 <;>
    first
      | rfl
      | simp [isChatStartFrame] at h2

theorem map_send_no_chatStart (s : DaemonState) (c : String) (l : List Frame)
    (h : l.all (fun f => !isChatStartFrame f) = true) :
    (l.map (fun f => sendToClientId s c f)).all
      (fun em => !isChatStartFrame em.frame) = true := by
  rw [List.all_eq_true] at h ⊢
  intro em hem
  rw [List.mem_map] at hem
  obtain ⟨f, hf, rfl⟩ := hem
  rw [sendToClientId_frame]
  exact h f hf

/-- Dequeue emissions: the only `chat_start` carries `queuedAhead := 0`. -/
theorem startTurn_chatStartZero (s : DaemonState) :
    ((startTurn s).2.all chatStartZero) = true := by
  unfold startTurn
  by_cases hp : s.processing = true
  · rw [if_pos hp]
    rfl
  · rw [if_neg hp]
    cases hq : s.queue with
    | nil => rfl
    | cons next rest =>
      dsimp only
      simp only [List.all_append, Bool.and_eq_true]
      constructor
      · split <;> simp [chatStartZero, sendToClientId_frame]
      · simp [chatStartZero, sendToClientId_frame]

/-- Every emission of every step satisfies `chatStartZero`. -/
theorem step_chatStartZero (s : DaemonState) (e : Event) :
    ((step s e).2.all chatStartZero) = true := by
  cases e with
  | connect sock => rfl
  | closeSock sock => rfl
  | line sock msg =>
    cases msg with
    | none => simp [step, chatStartZero, sendSock]
    | some m =>
      cases m with
      | registerClient cid zs => simp [step, handleMessage, chatStartZero, sendSock]
      | chatRequest rid cid text zs =>
        simp only [step, handleMessage, List.all_append, Bool.and_eq_true]
        constructor
        · split <;> simp [chatStartZero, sendToClientId_frame]
        · exact startTurn_chatStartZero _
      | setModel rid cid a =>
        rw [List.all_eq_true]
        intro em hem
        simp only [step, handleMessage, broadcastFrame, List.mem_map] at hem
        obtain ⟨k, hk, rfl⟩ := hem
        simp [chatStartZero, sendSock]
      | newSession rid cid zs =>
        simp only [step, handleMessage]
        split <;> simp [chatStartZero, sendToClientId_frame]
      | ping rid cid => simp [step, handleMessage, chatStartZero, sendToClientId_frame]
      | unknown => simp [step, handleMessage, chatStartZero, sendSock]
  | complete b =>
    simp only [step, completeTurn]
    cases hif : s.inFlight with
    | nil => rfl
    | cons x rest =>
      obtain ⟨req, cs⟩ := x
      dsimp only
      simp only [List.all_append, Bool.and_eq_true]
      constructor
      · exact all_chatStartZero_of_no_chatStart _
          (map_send_no_chatStart s req.clientId _ (runTurn_no_chatStart _ _ _ _))
      · exact startTurn_chatStartZero _

theorem run_chatStartZero (s : DaemonState) (events : List Event) :
    ((run s events).2.all chatStartZero) = true := by
  induction events generalizing s with
  | nil => rfl
  | cons e rest ih =>
    simp only [run, List.all_append, Bool.and_eq_true]
    exact ⟨step_chatStartZero s e, ih _⟩

/-- Claim C6 (amended): every `chat_start` frame the daemon emits carries
`queuedAhead := 0` — the field is hard-coded at the dequeue, not the queue
depth after the dequeue; the queue position is conveyed instead by the
"request queued (N ahead)" status_note at enqueue time; the ordering half
of the claim holds: in the three-registered-clients scenario each
request's chat_start is emitted only after the preceding request's
chat_end. -/
theorem C6_chat_start_queuedAhead (p z : Option String) (pid : Nat)
    (events : List Event) :
    ((run (initState p z pid) events).2.all chatStartZero = true) ∧
    (((run (initState none none 77) scenThreeRequests).2.map
          (fun em => em.frame)).filter
        (fun f => isChatStartFrame f || isChatEndFrame f) =
      [Frame.chatStart "r1" ModelAlias.opus 0, Frame.chatEnd "r1" true ModelAlias.opus,
       Frame.chatStart "r2" ModelAlias.opus 0, Frame.chatEnd "r2" true ModelAlias.opus,
       Frame.chatStart "r3" ModelAlias.opus 0, Frame.chatEnd "r3" true ModelAlias.opus]) :=
  ⟨run_chatStartZero _ events, by decide⟩

/-- Claim C6 counterexample: after the first completion dequeues `r2` the queue
still holds `r3` — depth 1 after the dequeue — yet `r2`'s chat_start
carries queuedAhead 0 and no chat_start with queuedAhead 1 is ever sent. -/
theorem C6_queuedAhead_cex :
    queueIds (run (initState none none 77) scenThreeRequestsHead).1 = ["r3"] ∧
    chatStartIds (run (initState none none 77) scenThreeRequestsHead).2 = ["r1", "r2"] ∧
    ((run (initState none none 77) scenThreeRequestsHead).2.countP
      (fun em => em.frame == Frame.chatStart "r2" ModelAlias.opus 0) = 1) ∧
    ((run (initState none none 77) scenThreeRequestsHead).2.countP
      (fun em => em.frame == Frame.chatStart "r2" ModelAlias.opus 1) = 0) := by
  refine ⟨by decide, by decide, by decide, by decide⟩

theorem chatStartIds_append (l1 l2 : List Emission) :
    chatStartIds (l1 ++ l2) = chatStartIds l1 ++ chatStartIds l2 := by
  simp [chatStartIds]

theorem chatStartIds_nil_of_no_chatStart (ems : List Emission)
    (h : ems.all (fun em => !isChatStartFrame em.frame) = true) :
    chatStartIds ems = [] := by
  induction ems with
  | nil => rfl
  | cons em rest ih =>
    simp only [List.all_cons, Bool.and_eq_true] at h
    have h1 := h.1
    unfold chatStartIds
    rw [List.filterMap_cons]
    have hnone : (match em.frame with
        | Frame.chatStart rid _ _ => some rid
        | _ => none) = (none : Option String) := by
      cases hf : em.frame <;> rw [hf] at h1 <;>
        first
          | rfl
          | simp [isChatStartFrame] at h1
    rw [hnone]
    exact ih h.2

/-- The dequeue step preserves the single-flight invariant and moves the
queue head (if it starts a turn) into the chat_start stream: the started
ids plus the remaining queue are exactly the old queue. -/
theorem startTurn_fifo (s : DaemonState)
    (h1 : s.processing = !s.inFlight.isEmpty) (h2 : s.inFlight.length ≤ 1) :
    ((startTurn s).1.processing = !(startTurn s).1.inFlight.isEmpty) ∧
    ((startTurn s).1.inFlight.length ≤ 1) ∧
    (chatStartIds (startTurn s).2 ++ queueIds (startTurn s).1 = queueIds s) := by
  unfold startTurn
  by_cases hp : s.processing = true
  · rw [if_pos hp]
    exact ⟨h1, h2, by simp [chatStartIds]⟩
  · rw [if_neg hp]
    have hpf : s.processing = false := by
      revert hp
      cases s.processing <;> simp
    have hif : s.inFlight = [] := by
      rw [hpf] at h1
      cases hfl : s.inFlight with
      | nil => rfl
      | cons a b2 =>
        rw [hfl] at h1
        simp at h1
    cases hq : s.queue with
    | nil => exact ⟨h1, h2, by simp [chatStartIds, queueIds, hq]⟩
    | cons next rest =>
      dsimp only
      refine ⟨by simp [hif], by simp [hif], ?_⟩
      rw [chatStartIds_append]
      simp only [queueIds, hq, List.map_cons]
      split
      · simp [chatStartIds, sendToClientId_frame]
      · simp [chatStartIds, sendToClientId_frame]

/-- Turn completion preserves the invariant; it emits no chat_start beyond
the one of the turn it immediately starts next. -/
theorem completeTurn_fifo (s : DaemonState) (b : TurnBehavior)
    (h1 : s.processing = !s.inFlight.isEmpty) (h2 : s.inFlight.length ≤ 1) :
    ((completeTurn s b).1.processing = !(completeTurn s b).1.inFlight.isEmpty) ∧
    ((completeTurn s b).1.inFlight.length ≤ 1) ∧
    (chatStartIds (completeTurn s b).2 ++ queueIds (completeTurn s b).1 = queueIds s) := by
  unfold completeTurn
  cases hif : s.inFlight with
  | nil => exact ⟨h1, h2, by simp [chatStartIds]⟩
  | cons x rest =>
    have hrest : rest = [] := by
      rw [hif] at h2
      simpa using h2
    subst hrest
    obtain ⟨req, cs⟩ := x
    dsimp only
    obtain ⟨t1, t2, t3⟩ := startTurn_fifo
      { s with
        sessionId := (runTurn req.requestId s.sessionId s.currentModel b).sessionId,
        lastActiveSession :=
          if (runTurn req.requestId s.sessionId s.currentModel b).successPath then cs
          else s.lastActiveSession,
        journal := s.journal ++
          (runTurn req.requestId s.sessionId s.currentModel b).historyAppends.map (fun rt =>
            { timestamp := "", session := cs, role := rt.1, text := rt.2 }),
        inFlight := [],
        processing := false }
      rfl (by simp)
    refine ⟨t1, t2, ?_⟩
    rw [chatStartIds_append,
      chatStartIds_nil_of_no_chatStart _
        (map_send_no_chatStart s req.clientId _ (runTurn_no_chatStart _ _ _ _)),
      List.nil_append]
    exact t3

theorem chatStartIds_singleton_nil (em : Emission)
    (h1 : isChatStartFrame em.frame = false) : chatStartIds [em] = [] :=
  chatStartIds_nil_of_no_chatStart [em] (by simp [h1])

theorem chatStartIds_note_if (c : Prop) [Decidable c] (em : Emission)
    (h1 : isChatStartFrame em.frame = false) :
    chatStartIds (if c then [em] else []) = [] := by
  split
  · exact chatStartIds_singleton_nil em h1
  · rfl

/-- One event-loop step preserves the single-flight invariant, and its
chat_start emissions plus the remaining queue extend the old queue by
exactly the enqueued request ids of the event. -/
theorem step_fifo (s : DaemonState) (e : Event)
    (h1 : s.processing = !s.inFlight.isEmpty) (h2 : s.inFlight.length ≤ 1) :
    ((step s e).1.processing = !(step s e).1.inFlight.isEmpty) ∧
    ((step s e).1.inFlight.length ≤ 1) ∧
    (chatStartIds (step s e).2 ++ queueIds (step s e).1
      = queueIds s ++ eventEnqIds e) := by
  cases e with
  | connect sock => exact ⟨h1, h2, by simp [step, chatStartIds, queueIds, eventEnqIds]⟩
  | closeSock sock => exact ⟨h1, h2, by simp [step, chatStartIds, queueIds, eventEnqIds]⟩
  | complete b =>
    obtain ⟨c1, c2, c3⟩ := completeTurn_fifo s b h1 h2
    exact ⟨c1, c2, by simpa [eventEnqIds] using c3⟩
  | line sock msg =>
    cases msg with
    | none => exact ⟨h1, h2, by simp [step, chatStartIds, queueIds, eventEnqIds, sendSock]⟩
    | some m =>
      cases m with
      | registerClient cid zs =>
        exact ⟨h1, h2,
          by simp [step, handleMessage, chatStartIds, queueIds, eventEnqIds, sendSock]⟩
      | chatRequest rid cid text zs =>
        obtain ⟨t1, t2, t3⟩ := startTurn_fifo
          { s with queue := s.queue ++
              [{ requestId := rid, clientId := cid, text := text,
                 zellijSession := normalizeString zs }] } h1 h2
        refine ⟨t1, t2, ?_⟩
        simp only [step, handleMessage]
        rw [chatStartIds_append,
          chatStartIds_note_if _ _ (by
            rw [sendToClientId_frame]
            rfl),
          List.nil_append, t3]
        simp [queueIds, eventEnqIds]
      | setModel rid cid a =>
        refine ⟨h1, h2, ?_⟩
        have hb : chatStartIds (broadcastFrame { s with currentModel := a }
            (Frame.modelUpdated rid a)) = [] := by
          apply chatStartIds_nil_of_no_chatStart
          rw [List.all_eq_true]
          intro em hem
          simp only [broadcastFrame, List.mem_map] at hem
          obtain ⟨k, hk, rfl⟩ := hem
          simp [sendSock, isChatStartFrame]
        simp [step, handleMessage, hb, queueIds, eventEnqIds]
      | newSession rid cid zs =>
        simp only [step, handleMessage]
        split
        · exact ⟨h1, h2, by simp [chatStartIds, sendToClientId_frame, queueIds, eventEnqIds]⟩
        · exact ⟨h1, h2, by simp [chatStartIds, sendToClientId_frame, queueIds, eventEnqIds]⟩
      | ping rid cid =>
        exact ⟨h1, h2,
          by simp [step, handleMessage, chatStartIds, sendToClientId_frame, queueIds, eventEnqIds]⟩
      | unknown =>
        exact ⟨h1, h2,
          by simp [step, handleMessage, chatStartIds, sendSock, queueIds, eventEnqIds]⟩

/-- The whole-run FIFO invariant: the chat_start ids emitted so far,
followed by the pending queue, are exactly the initial queue followed by
the enqueue order of the run's chat_requests. -/
theorem run_fifo (events : List Event) :
    ∀ (s : DaemonState),
      s.processing = !s.inFlight.isEmpty → s.inFlight.length ≤ 1 →
      ((run s events).1.processing = !(run s events).1.inFlight.isEmpty) ∧
      ((run s events).1.inFlight.length ≤ 1) ∧
      (chatStartIds (run s events).2 ++ queueIds (run s events).1
        = queueIds s ++ enqueuedIds events) := by
  induction events with
  | nil =>
    intro s h1 h2
    exact ⟨h1, h2, by simp [run, chatStartIds, enqueuedIds]⟩
  | cons e rest ih =>
    intro s h1 h2
    obtain ⟨hs1, hs2, hids⟩ := step_fifo s e h1 h2
    obtain ⟨hr1, hr2, hrids⟩ := ih (step s e).1 hs1 hs2
    refine ⟨hr1, hr2, ?_⟩
    show chatStartIds ((step s e).2 ++ (run (step s e).1 rest).2)
      ++ queueIds (run (step s e).1 rest).1
      = queueIds s ++ (eventEnqIds e ++ enqueuedIds rest)
    rw [chatStartIds_append, List.append_assoc, hrids, ← List.append_assoc, hids,
      List.append_assoc]

/-- Claim C2: in every run of the daemon from its initial state, at most one
turn is in flight at every instant (and the busy flag tracks exactly
whether one is), and the requestIds carried by the emitted chat_start
frames form a prefix of the enqueue order of the accepted chat_requests —
turns start in FIFO order across all clients. -/
theorem C2_fifo_single_flight (p z : Option String) (pid : Nat)
    (events : List Event) :
    ((run (initState p z pid) events).1.inFlight.length ≤ 1) ∧
    ((run (initState p z pid) events).1.processing
      = !(run (initState p z pid) events).1.inFlight.isEmpty) ∧
    (∃ t, chatStartIds (run (initState p z pid) events).2 ++ t
      = enqueuedIds events) := by
  obtain ⟨ha, hb, hc⟩ := run_fifo events (initState p z pid) rfl (by simp [initState])
  refine ⟨hb, ha, queueIds (run (initState p z pid) events).1, ?_⟩
  simpa [initState, queueIds] using hc

end JellyJ
